import Mathlib

/-!
Shallow embedding of the greenthumb real-time task synchronization client:
the REST error handling of `src/services/calendarApi.ts`, the
`CalendarWebSocket` reconnection behaviour, and the Calendar view's local
cache handlers (push-event dispatch, completion toggle, create, delete).
Machine behaviour driven by the browser event loop (socket open/close
events, the reconnect timer, explicit method calls) is modelled as a step
function over an explicit state record, with console logs and consumer
callbacks as an output list.
-/

namespace Greenthumb

/-- Task record, `CalendarTask` in `calendarApi.ts`: server-assigned numeric
`id`, display `title`, category `type`, ISO `date`, `completed` flag,
optional `description`, and `priority`. -/
structure CalendarTask where
  id : Int
  title : String
  «type» : String
  date : String
  completed : Bool
  description : Option String
  priority : String
deriving DecidableEq

/-- Payload for the create endpoint, `CreateCalendarTaskData` in
`calendarApi.ts`; `description` and `priority` are optional. -/
structure CreateCalendarTaskData where
  title : String
  «type» : String
  date : String
  description : Option String
  priority : Option String
deriving DecidableEq

/-- Parsed inbound push message as dispatched by the Calendar component's
onMessage handler: the `type` discriminator selects one of the three task
events, and every other discriminator falls through with no effect
(`other`). -/
inductive WSMessage where
  | task_updated (task : CalendarTask)
  | task_created (task : CalendarTask)
  | task_deleted (task_id : Int)
  | other
deriving DecidableEq

/-- The Calendar component's WebSocket onMessage dispatch: `task_updated`
maps the cache replacing tasks with a matching id by the carried task,
`task_created` appends the carried task, `task_deleted` filters out tasks
with the carried id, anything else leaves the cache alone. -/
def applyWSMessage (tasks : List CalendarTask) (data : WSMessage) : List CalendarTask :=
  match data with
  | WSMessage.task_updated t => tasks.map fun task => if task.id = t.id then t else task
  | WSMessage.task_created t => tasks ++ [t]
  | WSMessage.task_deleted tid => tasks.filter fun task => task.id != tid
  | WSMessage.other => tasks

/-- The component's `handleTaskToggle`: the server update call is awaited
first; on success the cache maps the matching task's `completed` to the
requested value, on failure the handler sets the matching task's
`completed` to the negation of the requested value (the "revert"). -/
def handleTaskToggle (tasks : List CalendarTask) (taskId : Int) (completed : Bool)
    (server : Except String CalendarTask) : List CalendarTask :=
  match server with
  | Except.ok _ =>
      tasks.map fun task => if task.id = taskId then { task with completed := completed } else task
  | Except.error _ =>
      tasks.map fun task => if task.id = taskId then { task with completed := !completed } else task

/-- The component's `handleDeleteTask`: on server success the matching task
is filtered out of the cache; on failure only a toast is shown and the
cache is untouched. -/
def handleDeleteTask (tasks : List CalendarTask) (taskId : Int)
    (server : Except String Unit) : List CalendarTask :=
  match server with
  | Except.ok _ => tasks.filter fun task => task.id != taskId
  | Except.error _ => tasks

/-- The component's `handleCreateTask`: an empty (trimmed) title aborts
before any server call; on server success the returned task is appended to
the cache; on failure the cache is untouched. -/
def handleCreateTask (tasks : List CalendarTask) (newTask : CreateCalendarTaskData)
    (server : Except String CalendarTask) : List CalendarTask :=
  if newTask.title.trim = "" then tasks
  else
    match server with
    | Except.ok created => tasks ++ [created]
    | Except.error _ => tasks

/-- Id uniqueness invariant over the cache. -/
def uniqueIds (tasks : List CalendarTask) : Prop :=
  (tasks.map fun t => t.id).Nodup

instance (tasks : List CalendarTask) : Decidable (uniqueIds tasks) := by
  unfold uniqueIds
  exact List.nodupDecidable _

/-! ### REST error handling (`calendarApi.ts`) -/

instance {ε α : Type} [DecidableEq ε] [DecidableEq α] : DecidableEq (Except ε α) := fun x y =>
  match x, y with
  | Except.ok a, Except.ok b =>
      if h : a = b then Decidable.isTrue (by rw [h])
      else Decidable.isFalse fun hc => h (Except.ok.inj hc)
  | Except.error a, Except.error b =>
      if h : a = b then Decidable.isTrue (by rw [h])
      else Decidable.isFalse fun hc => h (Except.error.inj hc)
  | Except.ok _, Except.error _ => Decidable.isFalse fun hc => Except.noConfusion hc
  | Except.error _, Except.ok _ => Decidable.isFalse fun hc => Except.noConfusion hc

/-- Abstraction of a fetch response: HTTP status, the best-effort parsed
`detail` field of an error body (`none` when the body fails to parse or
has no detail), and the parse outcome of a success body. -/
structure HttpResponse where
  status : Nat
  bodyDetail : Option String
  bodyTask : Except String CalendarTask
deriving DecidableEq

/-- `response.ok` of fetch: status in the 2xx range. -/
def responseOk (status : Nat) : Bool :=
  decide (200 ≤ status) && decide (status < 300)

/-- The thrown error: in the source every REST failure raises a plain
`Error`, so the only content is a message string. -/
structure ApiError where
  message : String
deriving DecidableEq

/-- Error message selection on a non-ok response: `errorData.detail ||
"HTTP error! status: " + status` — an absent or empty `detail` falls back
to the generic message (JS truthiness on the empty string). -/
def errorMessageOf (status : Nat) (detail : Option String) : String :=
  match detail with
  | some d => if d = "" then "HTTP error! status: " ++ toString status else d
  | none => "HTTP error! status: " ++ toString status

/-- `getCalendarTask`: on a non-ok response throws the plain error built by
`errorMessageOf`; on an ok response returns the parsed body (a body parse
failure propagates). -/
def getCalendarTask (resp : HttpResponse) : Except ApiError CalendarTask :=
  if responseOk resp.status then
    match resp.bodyTask with
    | Except.ok t => Except.ok t
    | Except.error m => Except.error { message := m }
  else
    Except.error { message := errorMessageOf resp.status resp.bodyDetail }

/-- `createCalendarTask`: identical response handling to `getCalendarTask`;
the request body (`taskData`) does not influence how a failure is raised. -/
def createCalendarTask (taskData : CreateCalendarTaskData) (resp : HttpResponse) :
    Except ApiError CalendarTask :=
  if responseOk resp.status then
    match resp.bodyTask with
    | Except.ok t => Except.ok t
    | Except.error m => Except.error { message := m }
  else
    Except.error { message := errorMessageOf resp.status resp.bodyDetail }

/-! ### CalendarWebSocket state machine -/

/-- Mutable state of a `CalendarWebSocket` instance together with the
browser resources it owns: `hasWs` is `this.ws !== null`, `wsConnected` is
`this.ws.readyState === OPEN`, `reconnectAttempts` the retry counter, and
`timerPending` whether a `setTimeout` reconnect callback is outstanding.
The source never stores the timer handle, so no operation can clear
`timerPending` except the timer firing. -/
structure CWSState where
  hasWs : Bool
  wsConnected : Bool
  reconnectAttempts : Nat
  timerPending : Bool
deriving DecidableEq

/-- `maxReconnectAttempts` in the source. -/
def maxReconnectAttempts : Nat := 5

/-- Observable outputs: console logs and consumer callbacks. -/
inductive COut where
  | logOpen
  | cbOpen
  | cbMessage (m : WSMessage)
  | logMsgError
  | logError
  | cbError
  | logClose
  | cbClose
  | logReconnect (k : Nat)
  | logMaxReached
  | logWarnNotConnected
  | sendOut (m : WSMessage)
deriving DecidableEq

/-- `attemptReconnect`: when the counter is below the maximum, increment it,
log the attempt, and schedule the reconnect timer; otherwise only log that
the maximum was reached. -/
def attemptReconnect (s : CWSState) : CWSState × List COut :=
  if s.reconnectAttempts < maxReconnectAttempts then
    ({ s with reconnectAttempts := s.reconnectAttempts + 1, timerPending := true },
      [COut.logReconnect (s.reconnectAttempts + 1)])
  else
    (s, [COut.logMaxReached])

/-- Body of `connect()`: construct a fresh socket (readyState starts below
OPEN) and install the handlers. -/
def connectMethod (s : CWSState) : CWSState :=
  { s with hasWs := true, wsConnected := false }

/-- Events driving a `CalendarWebSocket`: the two public method calls, the
browser socket events, the reconnect timer firing, and an outbound send. -/
inductive WSEvent where
  | connectCall
  | openEvt
  | messageEvt (parsed : Option WSMessage)
  | errorEvt
  | closeEvt
  | timerFire
  | disconnectCall
  | sendCall (m : WSMessage)
deriving DecidableEq

/-- One event handled as the source handles it: `onopen` logs, zeroes the
counter and invokes `onOpen`; `onmessage` invokes `onMessage` with the
parsed payload or only logs when parsing failed; `onerror` logs and invokes
`onError`; `onclose` logs, invokes `onClose`, then runs `attemptReconnect`;
the timer firing runs `connect()`; `disconnect()` closes and drops the
socket but touches no timer; `send` transmits only while the socket is
OPEN and otherwise warns. -/
def step (s : CWSState) : WSEvent → CWSState × List COut
  | WSEvent.connectCall => (connectMethod s, [])
  | WSEvent.openEvt =>
      ({ s with wsConnected := true, reconnectAttempts := 0 }, [COut.logOpen, COut.cbOpen])
  | WSEvent.messageEvt parsed =>
      match parsed with
      | some m => (s, [COut.cbMessage m])
      | none => (s, [COut.logMsgError])
  | WSEvent.errorEvt => (s, [COut.logError, COut.cbError])
  | WSEvent.closeEvt =>
      let r := attemptReconnect { s with wsConnected := false }
      (r.1, COut.logClose :: COut.cbClose :: r.2)
  | WSEvent.timerFire => (connectMethod { s with timerPending := false }, [])
  | WSEvent.disconnectCall =>
      (if s.hasWs then { s with hasWs := false, wsConnected := false } else s, [])
  | WSEvent.sendCall m =>
      if s.hasWs && s.wsConnected then (s, [COut.sendOut m])
      else (s, [COut.logWarnNotConnected])

/-- Run a sequence of events, accumulating the outputs. -/
def run (s : CWSState) : List WSEvent → CWSState × List COut
  | [] => (s, [])
  | e :: es =>
      let r := step s e
      let rest := run r.1 es
      (rest.1, r.2 ++ rest.2)

/-- Final state of a run. -/
def runState (s : CWSState) (es : List WSEvent) : CWSState := (run s es).1

/-- Outputs of a run. -/
def runOut (s : CWSState) (es : List WSEvent) : List COut := (run s es).2

/-- State of a freshly constructed client: no socket, counter 0, no timer. -/
def freshState : CWSState := ⟨false, false, 0, false⟩

/-- Recognize the log emitted exactly when a reconnect timer is scheduled. -/
def isSched : COut → Bool
  | COut.logReconnect _ => true
  | _ => false

/-- Number of reconnect timers scheduled during a run's outputs. -/
def schedCount (outs : List COut) : Nat := (outs.filter isSched).length

/-- Recognize a consumer `onMessage` invocation among outputs. -/
def isCbMessage : COut → Bool
  | COut.cbMessage _ => true
  | _ => false

/-- An event trace in which the initial explicit connect and every scheduled
reconnect fail with a close event; five reconnect cycles run, then the
final close exhausts the budget. -/
def allFailTrace : List WSEvent :=
  [WSEvent.connectCall,
   WSEvent.closeEvt, WSEvent.timerFire,
   WSEvent.closeEvt, WSEvent.timerFire,
   WSEvent.closeEvt, WSEvent.timerFire,
   WSEvent.closeEvt, WSEvent.timerFire,
   WSEvent.closeEvt, WSEvent.timerFire,
   WSEvent.closeEvt]

/-- Failure continuation used after a successful open: every subsequent
attempt closes, until the retry budget is exhausted. -/
def failAfterOpenTrace : List WSEvent :=
  [WSEvent.closeEvt, WSEvent.timerFire,
   WSEvent.closeEvt, WSEvent.timerFire,
   WSEvent.closeEvt, WSEvent.timerFire,
   WSEvent.closeEvt, WSEvent.timerFire,
   WSEvent.closeEvt, WSEvent.timerFire,
   WSEvent.closeEvt]

/-! ### Sample data -/

/-- Sample cached task with id 1. -/
def sampleTask : CalendarTask :=
  ⟨1, "Water rice field", "watering", "2024-06-01", false, none, "medium"⟩

/-- Sample task with id 2. -/
def sampleTask2 : CalendarTask :=
  ⟨2, "Prune tomato plants", "pruning", "2024-06-05", false, none, "low"⟩

/-- A task sharing id 1 with `sampleTask` but differing in content. -/
def sampleTask1b : CalendarTask :=
  ⟨1, "Water rice field", "watering", "2024-06-01", true, none, "high"⟩

/-- The toggled variant of `sampleTask`. -/
def sampleTaskToggled : CalendarTask := { sampleTask with completed := true }

/-- Sample create payload. -/
def sampleCreateData : CreateCalendarTaskData :=
  ⟨"Harvest wheat crop", "harvesting", "2024-06-10", none, some "medium"⟩

/-- Non-ok response with status 404 and a server-provided detail. -/
def resp404 : HttpResponse := ⟨404, some "boom", Except.error "no body"⟩

/-- Non-ok response with status 500 and the same detail. -/
def resp500 : HttpResponse := ⟨500, some "boom", Except.error "no body"⟩

/-- Non-ok response with status 422 (rejected create) and the same detail. -/
def resp422 : HttpResponse := ⟨422, some "boom", Except.error "no body"⟩

/-! ### Helper lemmas -/

/-- Updating a task's `completed` field with its current value is the
identity. -/
theorem completed_set_self (x : CalendarTask) : { x with completed := x.completed } = x := by
  cases x
  rfl

/-- In the pairing of a list with its image under a map, each pair's second
component is the image of its first. -/
theorem zip_map_self_snd {α : Type} (f : α → α) (l : List α) :
    ∀ p ∈ l.zip (l.map f), p.2 = f p.1 := by
  induction l with
  | nil => intro p hp; cases hp
  | cons a l ih =>
      intro p hp
      simp only [List.map_cons, List.zip_cons_cons, List.mem_cons] at hp
      rcases hp with h | h
      · rw [h]
      · exact ih p h

/-- A map that fixes every element of a list is the identity on it. -/
theorem map_eq_self_of_mem {α : Type} {l : List α} {f : α → α}
    (h : ∀ x ∈ l, f x = x) : l.map f = l := by
  induction l with
  | nil => rfl
  | cons a l ih =>
      simp only [List.map_cons]
      rw [h a (List.mem_cons_self a l), ih fun x hx => h x (List.mem_cons.mpr (Or.inr hx))]

/-- Appending one task whose id is fresh preserves id uniqueness. -/
theorem uniqueIds_append_fresh {tasks : List CalendarTask} {t : CalendarTask}
    (hu : uniqueIds tasks) (hfresh : ∀ x ∈ tasks, x.id ≠ t.id) :
    uniqueIds (tasks ++ [t]) := by
  unfold uniqueIds at *
  rw [List.map_append]
  refine List.Nodup.append hu (List.nodup_singleton _) ?_
  intro a ha hb
  rw [List.map_singleton, List.mem_singleton] at hb
  subst hb
  obtain ⟨x, hx, hxa⟩ := List.mem_map.mp ha
  exact hfresh x hx hxa

/-! ### Claims about the cache handlers -/

/-- C2 counterexample: a `task_updated` event whose id is absent from the
cache does not insert the carried task — the cache is left unchanged, so
the claimed upsert semantics fail. -/
theorem c2_updated_no_insert_cex :
    applyWSMessage [] (WSMessage.task_updated sampleTask) = [] ∧
    applyWSMessage [sampleTask2] (WSMessage.task_updated sampleTask) = [sampleTask2] ∧
    sampleTask ∉ applyWSMessage [sampleTask2] (WSMessage.task_updated sampleTask) := by
  decide

/-- C2 (amended): a `task_updated` event replaces every cached task whose
id matches the carried task with the carried task; when no cached task has
that id the cache is left unchanged (no insertion); the length of the
cache is preserved either way. -/
theorem c2_updated_replace_only (tasks : List CalendarTask) (t : CalendarTask) :
    (applyWSMessage tasks (WSMessage.task_updated t)).length = tasks.length ∧
    ((∀ x ∈ tasks, x.id ≠ t.id) → applyWSMessage tasks (WSMessage.task_updated t) = tasks) ∧
    (∀ x ∈ tasks, x.id = t.id → t ∈ applyWSMessage tasks (WSMessage.task_updated t)) ∧
    (∀ x ∈ tasks, x.id ≠ t.id → x ∈ applyWSMessage tasks (WSMessage.task_updated t)) := by
  simp only [applyWSMessage]
  refine ⟨List.length_map _ _, ?_, ?_, ?_⟩
  · intro h
    exact map_eq_self_of_mem fun x hx => if_neg (h x hx)
  · intro x hx hid
    have h2 := List.mem_map_of_mem (fun task => if task.id = t.id then t else task) hx
    simpa [hid] using h2
  · intro x hx hid
    have h2 := List.mem_map_of_mem (fun task => if task.id = t.id then t else task) hx
    simpa [hid] using h2

/-- C2 witness: with only id 2 cached, an update event for id 1 leaves the
cache unchanged, and an update event for id 2 replaces it. -/
theorem c2_updated_replace_only_witness :
    applyWSMessage [sampleTask2] (WSMessage.task_updated sampleTask) = [sampleTask2] ∧
    sampleTask2 ∈ [sampleTask2, sampleTask] ∧
    applyWSMessage [sampleTask2, sampleTask] (WSMessage.task_updated sampleTask1b) =
      [sampleTask2, sampleTask1b] :=
  ⟨(c2_updated_replace_only [sampleTask2] sampleTask).2.1 (by decide), by decide, by decide⟩

/-- C3 counterexample: a `task_created` event carrying an id that is
already cached appends unconditionally, producing two cached tasks with
id 1 and breaking the uniqueness invariant. -/
theorem c3_created_duplicate_cex :
    applyWSMessage [sampleTask] (WSMessage.task_created sampleTask1b) =
      [sampleTask, sampleTask1b] ∧
    ¬ uniqueIds (applyWSMessage [sampleTask] (WSMessage.task_created sampleTask1b)) := by
  decide

/-- C3 (amended): both a successful create and a `task_created` push event
append the carried task unconditionally; id uniqueness is preserved only
when the arriving id is not already cached (a duplicate id breaks it, as
the counterexample shows). -/
theorem c3_unique_preserved_when_fresh (tasks : List CalendarTask)
    (d : CreateCalendarTaskData) (t : CalendarTask)
    (hu : uniqueIds tasks) (hfresh : ∀ x ∈ tasks, x.id ≠ t.id) :
    uniqueIds (applyWSMessage tasks (WSMessage.task_created t)) ∧
    uniqueIds (handleCreateTask tasks d (Except.ok t)) := by
  constructor
  · exact uniqueIds_append_fresh hu hfresh
  · unfold handleCreateTask
    split
    · exact hu
    · exact uniqueIds_append_fresh hu hfresh

/-- C3 witness: creating a fresh id 2 on a cache holding id 1 keeps ids
unique through both paths. -/
theorem c3_unique_preserved_when_fresh_witness :
    uniqueIds (applyWSMessage [sampleTask] (WSMessage.task_created sampleTask2)) ∧
    uniqueIds (handleCreateTask [sampleTask] sampleCreateData (Except.ok sampleTask2)) :=
  c3_unique_preserved_when_fresh [sampleTask] sampleCreateData sampleTask2
    (by decide) (by decide)

/-- C5: toggling a cached task (the handler is invoked with the negation of
its cached `completed` value) and having the server update fail leaves the
cache equal to its pre-toggle contents; in particular the task's
`completed` equals its pre-toggle value. The side condition only rules out
several cached tasks sharing the toggled id with differing flags. -/
theorem c5_toggle_revert (tasks : List CalendarTask) (t : CalendarTask) (e : String)
    (ht : t ∈ tasks)
    (hdup : ∀ x ∈ tasks, x.id = t.id → x.completed = t.completed) :
    handleTaskToggle tasks t.id (!t.completed) (Except.error e) = tasks := by
  unfold handleTaskToggle
  refine map_eq_self_of_mem fun x hx => ?_
  by_cases h : x.id = t.id
  · rw [if_pos h, Bool.not_not, ← hdup x hx h, completed_set_self]
  · rw [if_neg h]

/-- C5 witness: toggling `sampleTask` with a failing server call leaves the
cache exactly as before. -/
theorem c5_toggle_revert_witness :
    handleTaskToggle [sampleTask, sampleTask2] sampleTask.id (!sampleTask.completed)
      (Except.error "HTTP error! status: 500") = [sampleTask, sampleTask2] :=
  c5_toggle_revert [sampleTask, sampleTask2] sampleTask "HTTP error! status: 500"
    (by decide) (by decide)

/-- C8: a failed create and a failed delete leave the local cache
completely unmodified. -/
theorem c8_failure_leaves_cache (tasks : List CalendarTask) (d : CreateCalendarTaskData)
    (taskId : Int) (e1 e2 : String) :
    handleCreateTask tasks d (Except.error e1) = tasks ∧
    handleDeleteTask tasks taskId (Except.error e2) = tasks := by
  constructor
  · unfold handleCreateTask
    split <;> rfl
  · rfl

/-- C10: on a successful toggle the cache keeps its length and order; each
position holds the original task when its id differs from the toggled id,
and the original task with only `completed` set to the requested value
when its id matches — every other field is untouched. -/
theorem c10_toggle_success_frame (tasks : List CalendarTask) (taskId : Int) (b : Bool)
    (srv : CalendarTask) :
    (handleTaskToggle tasks taskId b (Except.ok srv)).length = tasks.length ∧
    ∀ p ∈ tasks.zip (handleTaskToggle tasks taskId b (Except.ok srv)),
      (p.1.id ≠ taskId → p.2 = p.1) ∧
      (p.1.id = taskId → p.2 = { p.1 with completed := b }) := by
  unfold handleTaskToggle
  refine ⟨List.length_map _ _, ?_⟩
  intro p hp
  have hpf := zip_map_self_snd
    (fun task => if task.id = taskId then { task with completed := b } else task) tasks p hp
  constructor
  · intro h
    rw [hpf]
    simp only [if_neg h]
  · intro h
    rw [hpf]
    simp only [if_pos h]

/-- C10 witness: toggling id 1 in a two-task cache leaves the id 2 entry
untouched and changes only the `completed` field of the id 1 entry. -/
theorem c10_toggle_success_frame_witness :
    (sampleTask, sampleTaskToggled) ∈
      [sampleTask, sampleTask2].zip
        (handleTaskToggle [sampleTask, sampleTask2] 1 true (Except.ok sampleTaskToggled)) ∧
    sampleTaskToggled = { sampleTask with completed := true } :=
  ⟨by decide,
    ((c10_toggle_success_frame [sampleTask, sampleTask2] 1 true sampleTaskToggled).2
      (sampleTask, sampleTaskToggled) (by decide)).2 (by decide)⟩

/-! ### Claims about REST error handling -/

/-- C6 counterexample: a 404 on get, a 500 on get, and a 422 on create that
carry the same server detail raise literally identical errors — the single
plain error kind of the source — so a NotFound (or ValidationError)
category distinguishable from the generic error does not exist. -/
theorem c6_error_kind_cex :
    getCalendarTask resp404 = getCalendarTask resp500 ∧
    getCalendarTask resp404 = createCalendarTask sampleCreateData resp422 ∧
    getCalendarTask resp404 = Except.error { message := "boom" } := by
  decide

/-- C6 (amended): every non-2xx response makes get and create fail with
the one undifferentiated error kind, a plain error carrying only a message
(the server's non-empty `detail` when present); two failures with the same
detail are indistinguishable regardless of status (404 vs others) and of
operation (get vs create). -/
theorem c6_single_error_kind (r1 r2 : HttpResponse) (d : String)
    (data : CreateCalendarTaskData)
    (h1 : responseOk r1.status = false) (h2 : responseOk r2.status = false)
    (hd1 : r1.bodyDetail = some d) (hd2 : r2.bodyDetail = some d) (hne : d ≠ "") :
    getCalendarTask r1 = Except.error { message := d } ∧
    getCalendarTask r1 = getCalendarTask r2 ∧
    getCalendarTask r1 = createCalendarTask data r2 := by
  unfold getCalendarTask createCalendarTask errorMessageOf
  rw [h1, h2, hd1, hd2]
  simp [hne]

/-- C6 witness: instantiated at the 404 and 500 responses with detail
"boom". -/
theorem c6_single_error_kind_witness :
    getCalendarTask resp404 = Except.error { message := "boom" } ∧
    getCalendarTask resp404 = getCalendarTask resp500 ∧
    getCalendarTask resp404 = createCalendarTask sampleCreateData resp500 :=
  c6_single_error_kind resp404 resp500 "boom" sampleCreateData
    (by decide) (by decide) rfl rfl (by decide)

/-! ### Claims about the reconnection behaviour -/

/-- C1: code behaviour at the failing input. From a fresh client, an
explicit connect followed by a close puts the client in the reconnecting
situation with the timer pending and the counter at 1; calling
`disconnect()` drops the socket but leaves `timerPending` true (the source
never stores the `setTimeout` handle, so nothing clears it); when the
timer then fires, `connect()` runs and a new socket is constructed
(`hasWs` true again) although no explicit connect call occurred —
contradicting the claim that disconnect prevents any later automatic
connection attempt. -/
theorem c1_disconnect_then_timer_fires :
    runState freshState [WSEvent.connectCall, WSEvent.closeEvt] =
      ⟨true, false, 1, true⟩ ∧
    runState freshState [WSEvent.connectCall, WSEvent.closeEvt, WSEvent.disconnectCall] =
      ⟨false, false, 1, true⟩ ∧
    runState freshState
        [WSEvent.connectCall, WSEvent.closeEvt, WSEvent.disconnectCall, WSEvent.timerFire] =
      ⟨true, false, 1, false⟩ := by
  decide

/-- C4: the retry counter never exceeds `maxReconnectAttempts` under any
event; once it is at the maximum, `attemptReconnect` changes nothing and
schedules no timer, only logging that the maximum was reached; and on the
concrete trace in which every attempt fails, exactly 5 reconnect timers
are ever scheduled and the final state has counter 5, no socket open, and
no timer pending, with the max-reached log emitted. -/
theorem c4_reconnect_bound :
    (∀ s : CWSState, s.reconnectAttempts ≤ maxReconnectAttempts →
      ∀ e : WSEvent, (step s e).1.reconnectAttempts ≤ maxReconnectAttempts) ∧
    (∀ s : CWSState, s.reconnectAttempts = maxReconnectAttempts →
      attemptReconnect s = (s, [COut.logMaxReached])) ∧
    (schedCount (runOut freshState allFailTrace) = 5 ∧
      runState freshState allFailTrace = ⟨true, false, 5, false⟩ ∧
      COut.logMaxReached ∈ runOut freshState allFailTrace) := by
  refine ⟨?_, ?_, by decide⟩
  · intro s hs e
    cases e with
    | connectCall => exact hs
    | openEvt => exact Nat.zero_le _
    | messageEvt parsed => cases parsed <;> exact hs
    | errorEvt => exact hs
    | closeEvt =>
        simp only [step, attemptReconnect]
        split
        · next h => exact h
        · exact hs
    | timerFire => exact hs
    | disconnectCall =>
        simp only [step]
        split <;> exact hs
    | sendCall m =>
        simp only [step]
        split <;> exact hs
  · intro s hs
    unfold attemptReconnect
    rw [if_neg (by rw [hs]; exact Nat.lt_irrefl _)]

/-- C4 witness: the invariant instantiated at a mid-flight state and the
terminal behaviour at a counter of 5. -/
theorem c4_reconnect_bound_witness :
    (step ⟨true, false, 2, true⟩ WSEvent.closeEvt).1.reconnectAttempts ≤
      maxReconnectAttempts ∧
    attemptReconnect ⟨true, false, 5, false⟩ =
      (⟨true, false, 5, false⟩, [COut.logMaxReached]) :=
  ⟨c4_reconnect_bound.1 ⟨true, false, 2, true⟩ (by decide) WSEvent.closeEvt,
    c4_reconnect_bound.2.1 ⟨true, false, 5, false⟩ (by decide)⟩

/-- C7: a successful open zeroes the retry counter whatever it was before,
and from the resulting state a fresh run of consecutive failures schedules
a full budget of 5 reconnect timers again, ending with counter 5 and no
timer pending. -/
theorem c7_open_resets_budget (s : CWSState) :
    (step s WSEvent.openEvt).1.reconnectAttempts = 0 ∧
    schedCount (runOut (step s WSEvent.openEvt).1 failAfterOpenTrace) = 5 ∧
    (runState (step s WSEvent.openEvt).1 failAfterOpenTrace).reconnectAttempts = 5 ∧
    (runState (step s WSEvent.openEvt).1 failAfterOpenTrace).timerPending = false := by
  refine ⟨rfl, ?_, ?_, ?_⟩ <;>
    simp [failAfterOpenTrace, runOut, runState, run, step, attemptReconnect,
      connectMethod, maxReconnectAttempts, schedCount, isSched]

/-- C9: a message whose payload fails to parse leaves the client state
exactly as it was (no transition, no close), produces only the parse-error
log, and invokes no consumer `onMessage` callback; the handler returns
normally rather than throwing. -/
theorem c9_malformed_message_safe (s : CWSState) :
    (step s (WSEvent.messageEvt none)).1 = s ∧
    (step s (WSEvent.messageEvt none)).2 = [COut.logMsgError] ∧
    ((step s (WSEvent.messageEvt none)).2.filter isCbMessage) = [] := by
  exact ⟨rfl, rfl, rfl⟩
